import Mathlib

/-!
The section service and the employee handler of mercado-fresco-pron4.

A shallow embedding of `internal/section/service.go` and of the employee
controller in `cmd/server/handler/employee.go`.

Go's `(T, error)` results are pairs `T × Option error`, where `none` is the
`nil` error. A collaborator reached through an interface (the section
`Repository`, the employee `Service`) is a record of state-passing functions
over an arbitrary state type `σ`; every function of the embedding returns the
list of collaborator calls it made, in order, next to its result.

Go's `int` is modelled as `Int`: the code embedded here only copies, compares
and prints integers, so no arithmetic can overflow.
-/

namespace MercadoFresco

/-- An `error` value, identified by its message (`fmt.Errorf` builds one from a
format string; `err.Error()` reads it back). -/
abbrev error := String

namespace Sections

/-- Modelled from the spec: the `Section` type declaration is not part of the
sources at hand; its fields are the ones `service.go` reads and writes, all
integers as in the data model of the spec. -/
structure Section where
  Id : Int
  SectionNumber : Int
  CurrentTemperature : Int
  MinimumTemperature : Int
  CurrentCapacity : Int
  MinimumCapacity : Int
  MaximumCapacity : Int
  WareHouseId : Int
  ProductTypeId : Int
  deriving DecidableEq, Repr

/-- Modelled from the spec: the `SectionRequest` type declaration is not part of
the sources at hand; its fields are the ones `CreateSection` reads. -/
structure SectionRequest where
  SectionNumber : Int
  CurrentTemperature : Int
  MinimumTemperature : Int
  CurrentCapacity : Int
  MinimumCapacity : Int
  MaximumCapacity : Int
  WareHouseId : Int
  ProductTypeId : Int
  deriving DecidableEq, Repr

/-- The composite literal `Section{}`: every field at its zero value. -/
def Section.zero : Section :=
  { Id := 0, SectionNumber := 0, CurrentTemperature := 0, MinimumTemperature := 0,
    CurrentCapacity := 0, MinimumCapacity := 0, MaximumCapacity := 0,
    WareHouseId := 0, ProductTypeId := 0 }

/-- Modelled from the spec: the `Repository` interface declaration is not part of
the sources at hand. The first five operations are the ones `service.go` calls;
`LastID` is the sixth operation of the storage port of the spec (section 4.1).
Each operation reads and may change the store `σ`. -/
structure Repository (σ : Type) where
  ListarSectionAll : σ → (List Section × Option error) × σ
  ListarSectionOne : Int → σ → (Section × Option error) × σ
  CreateSection : Section → σ → (Section × Option error) × σ
  UpdateSection : Int → Section → σ → (Section × Option error) × σ
  DeleteSection : Int → σ → Option error × σ
  LastID : σ → (Int × Option error) × σ

/-- One call on the repository, with its arguments. -/
inductive Call where
  | ListarSectionAll
  | ListarSectionOne (id : Int)
  | CreateSection (sec : Section)
  | UpdateSection (id : Int) (sec : Section)
  | DeleteSection (id : Int)
  | LastID
  deriving DecidableEq, Repr

/-- What one service operation did: the value it returned, the repository calls
it made in order, and the store it left behind. -/
structure Run (σ α : Type) where
  value : α
  calls : List Call
  state : σ

/-- The `service` struct: a single `repository` field. -/
structure service (σ : Type) where
  repository : Repository σ

/-- The constructor `NewService`. -/
def NewService {σ : Type} (repository : Repository σ) : service σ :=
  { repository := repository }

/-- The method `service.ListarSectionAll`. -/
def service.ListarSectionAll {σ : Type} (s : service σ) (st : σ) :
    Run σ (List Section × Option error) :=
  let r := s.repository.ListarSectionAll st
  { value := r.1, calls := [Call.ListarSectionAll], state := r.2 }

/-- The method `service.ListarSectionOne`. -/
def service.ListarSectionOne {σ : Type} (s : service σ) (id : Int) (st : σ) :
    Run σ (Section × Option error) :=
  let r := s.repository.ListarSectionOne id st
  { value := r.1, calls := [Call.ListarSectionOne id], state := r.2 }

/-- The error of `CreateSection` when the section number is taken. -/
def createConflict : error := "section invalid, section_number field must be unique"

/-- The error of `UpdateSection` when the section number is taken:
`fmt.Errorf("this section_number %d is already registered", n)`. -/
def updateConflict (n : Int) : error :=
  "this section_number " ++ toString n ++ " is already registered"

/-- The method `service.CreateSection`. -/
def service.CreateSection {σ : Type} (s : service σ) (newSection : SectionRequest) (st : σ) :
    Run σ (Section × Option error) :=
  let r := s.repository.ListarSectionAll st
  match r.1.2 with
  | some err => { value := (Section.zero, some err), calls := [Call.ListarSectionAll], state := r.2 }
  | none =>
    if r.1.1.any (fun x => x.SectionNumber == newSection.SectionNumber) then
      { value := (Section.zero, some createConflict), calls := [Call.ListarSectionAll],
        state := r.2 }
    else
      let sec : Section :=
        { Id := 0,
          SectionNumber := newSection.SectionNumber,
          CurrentTemperature := newSection.CurrentTemperature,
          MinimumTemperature := newSection.MinimumTemperature,
          CurrentCapacity := newSection.CurrentCapacity,
          MinimumCapacity := newSection.MinimumCapacity,
          MaximumCapacity := newSection.MaximumCapacity,
          WareHouseId := newSection.WareHouseId,
          ProductTypeId := newSection.ProductTypeId }
      let c := s.repository.CreateSection sec r.2
      { value := c.1, calls := [Call.ListarSectionAll, Call.CreateSection sec], state := c.2 }

/-- The method `service.UpdateSection`. -/
def service.UpdateSection {σ : Type} (s : service σ) (id : Int) (sectionUp : Section) (st : σ) :
    Run σ (Section × Option error) :=
  let r := s.repository.ListarSectionAll st
  match r.1.2 with
  | some err => { value := (sectionUp, some err), calls := [Call.ListarSectionAll], state := r.2 }
  | none =>
    if r.1.1.any (fun x => x.Id != id && x.SectionNumber == sectionUp.SectionNumber) then
      { value := (Section.zero, some (updateConflict sectionUp.SectionNumber)),
        calls := [Call.ListarSectionAll], state := r.2 }
    else
      let u := s.repository.UpdateSection id sectionUp r.2
      { value := u.1, calls := [Call.ListarSectionAll, Call.UpdateSection id sectionUp],
        state := u.2 }

/-- The method `service.DeleteSection`. -/
def service.DeleteSection {σ : Type} (s : service σ) (id : Int) (st : σ) :
    Run σ (Option error) :=
  let r := s.repository.DeleteSection id st
  { value := r.1, calls := [Call.DeleteSection id], state := r.2 }

/-- Modelled from the spec: no repository implementation is part of the sources
at hand. This is the in-memory store of section 4.1, kept as the list of its
records: reads return the list or the record, `CreateSection` appends the
candidate and echoes it back, `UpdateSection` and `DeleteSection` fail with a
not-found error when no record has the id, `LastID` is the largest id or 0. It
serves as a concrete repository wherever one is needed. -/
def memRepository : Repository (List Section) where
  ListarSectionAll := fun st => ((st, none), st)
  ListarSectionOne := fun id st =>
    match st.find? (fun x => x.Id == id) with
    | some x => ((x, none), st)
    | none => ((Section.zero, some "section not found"), st)
  CreateSection := fun sec st => ((sec, none), st ++ [sec])
  UpdateSection := fun id sec st =>
    if st.any (fun x => x.Id == id) then
      ((sec, none), st.map (fun x => if x.Id == id then sec else x))
    else ((Section.zero, some "section not found"), st)
  DeleteSection := fun id st =>
    if st.any (fun x => x.Id == id) then (none, st.filter (fun x => x.Id != id))
    else (some "section not found", st)
  LastID := fun st => ((st.foldl (fun m x => max m x.Id) 0, none), st)

/-- A repository whose every operation fails with the given error and leaves the
store alone: a storage failure. -/
def failingRepository (e : error) : Repository Unit where
  ListarSectionAll := fun st => (([], some e), st)
  ListarSectionOne := fun _ st => ((Section.zero, some e), st)
  CreateSection := fun _ st => ((Section.zero, some e), st)
  UpdateSection := fun _ _ st => ((Section.zero, some e), st)
  DeleteSection := fun _ st => (some e, st)
  LastID := fun st => ((0, some e), st)

/-- The in-memory store with a `CreateSection` that fails to save: it answers
the zero `Section` and an error and stores nothing. -/
def saveFailingRepository : Repository (List Section) :=
  { memRepository with
    CreateSection := fun _ st => ((Section.zero, some "Fail to save"), st) }

/-- A sample stored record: id and section number given, every other field 10. -/
def sampleSection (id n : Int) : Section :=
  { Id := id, SectionNumber := n, CurrentTemperature := 10, MinimumTemperature := 10,
    CurrentCapacity := 10, MinimumCapacity := 10, MaximumCapacity := 10,
    WareHouseId := 10, ProductTypeId := 10 }

/-- A sample creation request: section number given, every other field 20. -/
def sampleRequest (n : Int) : SectionRequest :=
  { SectionNumber := n, CurrentTemperature := 20, MinimumTemperature := 20,
    CurrentCapacity := 20, MinimumCapacity := 20, MaximumCapacity := 20,
    WareHouseId := 20, ProductTypeId := 20 }

/-- The id the spec gives a new record: the largest id among the existing
records plus one, which is 1 for an empty collection (the largest id of an
empty collection counting as 0, as `LastID` reports it). -/
def specNewId (l : List Section) : Int :=
  l.foldl (fun m x => max m x.Id) 0 + 1

/-- The merge of the spec for one field: the value of the request when it is
not the zero value, the stored value otherwise. -/
def specMergeField (stored requested : Int) : Int :=
  if requested = 0 then stored else requested

/-- The merge of the spec for a whole record: `specMergeField` on every field. -/
def specMerge (r up : Section) : Section :=
  { Id := specMergeField r.Id up.Id,
    SectionNumber := specMergeField r.SectionNumber up.SectionNumber,
    CurrentTemperature := specMergeField r.CurrentTemperature up.CurrentTemperature,
    MinimumTemperature := specMergeField r.MinimumTemperature up.MinimumTemperature,
    CurrentCapacity := specMergeField r.CurrentCapacity up.CurrentCapacity,
    MinimumCapacity := specMergeField r.MinimumCapacity up.MinimumCapacity,
    MaximumCapacity := specMergeField r.MaximumCapacity up.MaximumCapacity,
    WareHouseId := specMergeField r.WareHouseId up.WareHouseId,
    ProductTypeId := specMergeField r.ProductTypeId up.ProductTypeId }

end Sections

namespace Handler

/-- Modelled from the spec: the `employee.Employee` type declaration is not part
of the sources at hand; it is the employee record of the data model. The
handlers never look inside it. -/
structure Employee where
  ID : Int
  CardNumberID : String
  FirstName : String
  LastName : String
  WarehouseID : Int
  deriving DecidableEq, Repr

/-- Modelled from the spec: the `employee.Service` interface declaration is not
part of the sources at hand; these are the five operations the controller
calls, with the arguments it passes. Each reads and may change the state `σ`
behind the service. -/
structure Service (σ : Type) where
  GetAll : σ → (List Employee × Option error) × σ
  GetByID : Int → σ → (Employee × Option error) × σ
  Create : String → String → String → Int → σ → (Employee × Option error) × σ
  Update : Int → String → String → String → Int → σ → (Employee × Option error) × σ
  Delete : Int → σ → Option error × σ

/-- One call on the employee service, with its arguments. -/
inductive ServiceCall where
  | GetAll
  | GetByID (id : Int)
  | Create (cardNumberID firstName lastName : String) (warehouseID : Int)
  | Update (id : Int) (cardNumberID firstName lastName : String) (warehouseID : Int)
  | Delete (id : Int)
  deriving DecidableEq, Repr

/-- The `request` struct, with its `validate` tags: `len=9` on `CardNumberID`,
`nonzero` on the three other fields. -/
structure request where
  CardNumberID : String
  FirstName : String
  LastName : String
  WarehouseID : Int
  deriving DecidableEq, Repr

/-- What `ctx.ShouldBindJSON(&req)` makes of the request body, `req` being a
`*request` already, so that the bind target is a pointer to that pointer:
* `eof`: the body is empty and the decoder returns `io.EOF`;
* `failure`: the decoder returns another error, for a body that is not JSON or
  is well-formed JSON that does not fit the struct (an array, a field of the
  wrong type);
* `null`: the body is the JSON value `null`; the decoder sets the `*request` to
  nil and the struct validation of the bind panics on the nil pointer;
* `ok`: the body is a JSON object that fits; the struct is filled, a key the
  body leaves out keeping its zero value. -/
inductive BindResult where
  | eof
  | failure (msg : error)
  | null
  | ok (req : request)
  deriving DecidableEq, Repr

/-- The part of `*gin.Context` the handlers read: `strconv.Atoi(ctx.Param("id"))`
(`none` when the parameter is not an integer) and the outcome of binding the
body. -/
structure Context where
  id : Option Int
  body : BindResult
  deriving DecidableEq, Repr

/-- The text under the `"error"` key of a response: a message, or the rendering
of the validation failure of the listed (field, tag) pairs; the list names the
failing fields in the order of the struct, the order in which the library
prints them is its own. -/
inductive ErrorText where
  | text (msg : error)
  | invalid (failed : List (String × String))
  deriving DecidableEq, Repr

/-- The JSON written to the response: `gin.H{"error": ...}`, `gin.H{"data": ...}`
with a list or one employee, a bare employee, or nothing. -/
inductive Body where
  | error (e : ErrorText)
  | dataList (l : List Employee)
  | data (e : Employee)
  | entity (e : Employee)
  | empty
  deriving DecidableEq, Repr

/-- The response a handler writes: status code and body. -/
structure Response where
  status : Nat
  body : Body
  deriving DecidableEq, Repr

/-- What one handler did: the response it wrote (`none` when it panicked before
writing one), the service calls it made in order, and the state it left behind
the service. -/
structure HandlerRun (σ : Type) where
  response : Option Response
  calls : List ServiceCall
  state : σ

/-- The status code of the response a handler wrote, if it wrote one. -/
def HandlerRun.status {σ : Type} (r : HandlerRun σ) : Option Nat :=
  r.response.map Response.status

/-- How a call of `CheckIfErrorRequest` ends: it panics inside the bind, it
writes a response and returns `true`, or it returns `false` with the request
bound and validated. -/
inductive Checked where
  | panic
  | rejected (resp : Response)
  | ok (req : request)
  deriving DecidableEq, Repr

/-- The function `checkID`: the id, or the 400 response it aborts with. -/
def checkID (ctx : Context) : Except Response Int :=
  match ctx.id with
  | none => .error { status := 400, body := .error (.text "invalid ID") }
  | some id => .ok id

/-- The function `RequestValidator`: `validator.Validate` over the tags of
`request`; `none` when every field passes, otherwise the failing fields. The
tag `len=9` counts the characters of the string, `nonzero` rejects the empty
string and the integer 0. -/
def RequestValidator (req : request) : Option (List (String × String)) :=
  let failed :=
    (if req.CardNumberID.length = 9 then [] else [("CardNumberID", "len")]) ++
    (if req.FirstName = "" then [("FirstName", "nonzero")] else []) ++
    (if req.LastName = "" then [("LastName", "nonzero")] else []) ++
    (if req.WarehouseID = 0 then [("WarehouseID", "nonzero")] else [])
  if failed = [] then none else some failed

/-- The function `CheckIfErrorRequest`: the bound and validated request, the
response written when it returns `true`, or the panic of the bind on a `null`
body. -/
def CheckIfErrorRequest (ctx : Context) : Checked :=
  match ctx.body with
  | .null => .panic
  | .eof => .rejected { status := 400, body := .error (.text "body could not be empty") }
  | .failure msg => .rejected { status := 400, body := .error (.text msg) }
  | .ok req =>
    match RequestValidator req with
    | some failed => .rejected { status := 422, body := .error (.invalid failed) }
    | none => .ok req

/-- The `EmployeeController` struct: a single `service` field. -/
structure EmployeeController (σ : Type) where
  service : Service σ

/-- The constructor `NewEmployee`. -/
def NewEmployee {σ : Type} (employee : Service σ) : EmployeeController σ :=
  { service := employee }

/-- The handler `EmployeeController.GetAll`. -/
def EmployeeController.GetAll {σ : Type} (c : EmployeeController σ) (_ctx : Context) (st : σ) :
    HandlerRun σ :=
  let r := c.service.GetAll st
  match r.1.2 with
  | some err =>
    { response := some { status := 404, body := .error (.text err) },
      calls := [ServiceCall.GetAll], state := r.2 }
  | none =>
    { response := some { status := 200, body := .dataList r.1.1 },
      calls := [ServiceCall.GetAll], state := r.2 }

/-- The handler `EmployeeController.GetByID`. -/
def EmployeeController.GetByID {σ : Type} (c : EmployeeController σ) (ctx : Context) (st : σ) :
    HandlerRun σ :=
  match checkID ctx with
  | .error resp => { response := some resp, calls := [], state := st }
  | .ok id =>
    let r := c.service.GetByID id st
    match r.1.2 with
    | some err =>
      { response := some { status := 404, body := .error (.text err) },
        calls := [ServiceCall.GetByID id], state := r.2 }
    | none =>
      { response := some { status := 200, body := .data r.1.1 },
        calls := [ServiceCall.GetByID id], state := r.2 }

/-- The handler `EmployeeController.Create`. -/
def EmployeeController.Create {σ : Type} (c : EmployeeController σ) (ctx : Context) (st : σ) :
    HandlerRun σ :=
  match CheckIfErrorRequest ctx with
  | .panic => { response := none, calls := [], state := st }
  | .rejected resp => { response := some resp, calls := [], state := st }
  | .ok req =>
    let r := c.service.Create req.CardNumberID req.FirstName req.LastName req.WarehouseID st
    let call := ServiceCall.Create req.CardNumberID req.FirstName req.LastName req.WarehouseID
    match r.1.2 with
    | some err =>
      { response := some { status := 404, body := .error (.text err) }, calls := [call], state := r.2 }
    | none =>
      { response := some { status := 201, body := .entity r.1.1 }, calls := [call], state := r.2 }

/-- The handler `EmployeeController.Update`. -/
def EmployeeController.Update {σ : Type} (c : EmployeeController σ) (ctx : Context) (st : σ) :
    HandlerRun σ :=
  match checkID ctx with
  | .error resp => { response := some resp, calls := [], state := st }
  | .ok id =>
    match CheckIfErrorRequest ctx with
    | .panic => { response := none, calls := [], state := st }
    | .rejected resp => { response := some resp, calls := [], state := st }
    | .ok req =>
      let r := c.service.Update id req.CardNumberID req.FirstName req.LastName req.WarehouseID st
      let call := ServiceCall.Update id req.CardNumberID req.FirstName req.LastName req.WarehouseID
      match r.1.2 with
      | some err =>
        { response := some { status := 404, body := .error (.text err) }, calls := [call],
          state := r.2 }
      | none =>
        { response := some { status := 200, body := .entity r.1.1 }, calls := [call], state := r.2 }

/-- The handler `EmployeeController.Delete`. -/
def EmployeeController.Delete {σ : Type} (c : EmployeeController σ) (ctx : Context) (st : σ) :
    HandlerRun σ :=
  match checkID ctx with
  | .error resp => { response := some resp, calls := [], state := st }
  | .ok id =>
    let r := c.service.Delete id st
    match r.1 with
    | some err =>
      { response := some { status := 404, body := .error (.text err) },
        calls := [ServiceCall.Delete id], state := r.2 }
    | none =>
      { response := some { status := 204, body := .empty }, calls := [ServiceCall.Delete id],
        state := r.2 }

/-- The zero value `employee.Employee{}`. -/
def Employee.zero : Employee :=
  { ID := 0, CardNumberID := "", FirstName := "", LastName := "", WarehouseID := 0 }

/-- A stateless service double in the manner of the mocks of the tests: every
operation answers with the given employee and error, whatever its arguments. -/
def stubService (e : Employee) (err : Option error) : Service Unit where
  GetAll := fun st => (([e], err), st)
  GetByID := fun _ st => ((e, err), st)
  Create := fun _ _ _ _ st => ((e, err), st)
  Update := fun _ _ _ _ _ st => ((e, err), st)
  Delete := fun _ st => (err, st)

/-- A request body that supplies all four fields. -/
def fullRequest : request :=
  { CardNumberID := "AAA111222", FirstName := "Ana", LastName := "Silva", WarehouseID := 3 }

/-- A request body that supplies `card_number_id` and `first_name` only. -/
def subsetRequest : request :=
  { CardNumberID := "AAA111222", FirstName := "Ana", LastName := "", WarehouseID := 0 }

end Handler

/-! Properties of the section service. -/

namespace Sections

/-- C1. When the repository lists the collection without error and some listed
record has the section number of the creation request, `CreateSection` returns
the zero `Section` with the error "section invalid, section_number field must
be unique", its only repository call is `ListarSectionAll`, and the whole run
is the same whatever the repository's `CreateSection` operation is. -/
theorem CreateSection_duplicate_conflict {σ : Type} (s : service σ)
    (newSection : SectionRequest) (st st1 : σ) (l : List Section)
    (hList : s.repository.ListarSectionAll st = ((l, none), st1))
    (hDup : ∃ r ∈ l, r.SectionNumber = newSection.SectionNumber) :
    (s.CreateSection newSection st).value
        = (Section.zero, some "section invalid, section_number field must be unique") ∧
      (s.CreateSection newSection st).calls = [Call.ListarSectionAll] ∧
      (s.CreateSection newSection st).state = st1 ∧
      ∀ create : Section → σ → (Section × Option error) × σ,
        (service.mk { s.repository with CreateSection := create }).CreateSection newSection st
          = s.CreateSection newSection st := by
  have hAny : l.any (fun x => x.SectionNumber == newSection.SectionNumber) = true := by
    obtain ⟨r, hr, hEq⟩ := hDup
    exact List.any_eq_true.mpr ⟨r, hr, by simp [hEq]⟩
  refine ⟨?_, ?_, ?_, ?_⟩
  · simp [service.CreateSection, hList, hAny, createConflict]
  · simp [service.CreateSection, hList, hAny]
  · simp [service.CreateSection, hList, hAny]
  · intro create
    simp [service.CreateSection, hList, hAny]

/-- C1, at a sample: the store holds section number 5 and the request asks for 5. -/
theorem CreateSection_duplicate_conflict_witness :
    memRepository.ListarSectionAll [sampleSection 1 5]
        = (([sampleSection 1 5], none), [sampleSection 1 5]) ∧
      ((NewService memRepository).CreateSection (sampleRequest 5) [sampleSection 1 5]).value
        = (Section.zero, some "section invalid, section_number field must be unique") ∧
      ((NewService memRepository).CreateSection (sampleRequest 5) [sampleSection 1 5]).calls
        = [Call.ListarSectionAll] :=
  ⟨rfl,
   (CreateSection_duplicate_conflict (NewService memRepository) (sampleRequest 5)
      [sampleSection 1 5] [sampleSection 1 5] [sampleSection 1 5] rfl
      ⟨sampleSection 1 5, by simp, rfl⟩).1,
   (CreateSection_duplicate_conflict (NewService memRepository) (sampleRequest 5)
      [sampleSection 1 5] [sampleSection 1 5] [sampleSection 1 5] rfl
      ⟨sampleSection 1 5, by simp, rfl⟩).2.1⟩

/-- The scan of `UpdateSection` finds a record exactly when some listed record
has another id and the section number of the request. -/
theorem collision_scan (l : List Section) (id n : Int) :
    l.any (fun x => x.Id != id && x.SectionNumber == n) = true
      ↔ ∃ r ∈ l, r.Id ≠ id ∧ r.SectionNumber = n := by
  simp [List.any_eq_true]

/-- The scan of `CreateSection` finds no record exactly when no listed record has
the section number of the request. -/
theorem duplicate_scan_false (l : List Section) (n : Int) :
    l.any (fun x => x.SectionNumber == n) = false ↔ ∀ r ∈ l, r.SectionNumber ≠ n := by
  simp [List.any_eq_false]

/-- C2. When the repository lists the collection without error, `UpdateSection`
returns the zero `Section` with the "already registered" error after the
listing call alone exactly when some listed record has an id other than `id`
and the section number of the request; and when every listed record with that
section number has the id `id` itself, the result is the pair the repository's
`UpdateSection` returns for the same id and entity. -/
theorem UpdateSection_conflict_iff {σ : Type} (s : service σ) (id : Int)
    (sectionUp : Section) (st st1 : σ) (l : List Section)
    (hList : s.repository.ListarSectionAll st = ((l, none), st1)) :
    (((s.UpdateSection id sectionUp st).value
          = (Section.zero, some (updateConflict sectionUp.SectionNumber)) ∧
        (s.UpdateSection id sectionUp st).calls = [Call.ListarSectionAll])
        ↔ ∃ r ∈ l, r.Id ≠ id ∧ r.SectionNumber = sectionUp.SectionNumber) ∧
      ((∀ r ∈ l, r.SectionNumber = sectionUp.SectionNumber → r.Id = id) →
        (s.UpdateSection id sectionUp st).value
            = (s.repository.UpdateSection id sectionUp st1).1 ∧
          (s.UpdateSection id sectionUp st).calls
            = [Call.ListarSectionAll, Call.UpdateSection id sectionUp] ∧
          (s.UpdateSection id sectionUp st).state
            = (s.repository.UpdateSection id sectionUp st1).2) := by
  by_cases hAny :
      l.any (fun x => x.Id != id && x.SectionNumber == sectionUp.SectionNumber) = true
  · have hEx := (collision_scan l id sectionUp.SectionNumber).mp hAny
    refine ⟨⟨fun _ => hEx, fun _ => ?_⟩, fun hOwn => ?_⟩
    · simp [service.UpdateSection, hList, hAny]
    · obtain ⟨r, hr, hId, hNum⟩ := hEx
      exact absurd (hOwn r hr hNum) hId
  · have hNo : ¬ ∃ r ∈ l, r.Id ≠ id ∧ r.SectionNumber = sectionUp.SectionNumber :=
      fun h => hAny ((collision_scan l id sectionUp.SectionNumber).mpr h)
    have hFalse :
        l.any (fun x => x.Id != id && x.SectionNumber == sectionUp.SectionNumber) = false := by
      simpa using hAny
    refine ⟨⟨fun h => ?_, fun h => absurd h hNo⟩, fun _ => ?_⟩
    · have hCalls := h.2
      simp [service.UpdateSection, hList, hFalse] at hCalls
    · simp [service.UpdateSection, hList, hFalse]

/-- C2, at a sample: record 1 holds section number 5 and is updated with 5 again,
which is no collision, so the repository's answer comes back. -/
theorem UpdateSection_conflict_iff_witness :
    memRepository.ListarSectionAll [sampleSection 1 5, sampleSection 2 6]
        = (([sampleSection 1 5, sampleSection 2 6], none),
            [sampleSection 1 5, sampleSection 2 6]) ∧
      ((NewService memRepository).UpdateSection 1 (sampleSection 1 5)
          [sampleSection 1 5, sampleSection 2 6]).value = (sampleSection 1 5, none) :=
  ⟨rfl,
   ((UpdateSection_conflict_iff (NewService memRepository) 1 (sampleSection 1 5)
      [sampleSection 1 5, sampleSection 2 6] [sampleSection 1 5, sampleSection 2 6]
      [sampleSection 1 5, sampleSection 2 6] rfl).2 (by decide)).1⟩

/-- C3, refuted at a sample: the store holds one record with id 3, so the
largest id and `LastID` are 3 and the spec's new id is 4, yet the entity
`CreateSection` hands to the repository, and the one the echoing repository
returns, has id 0; on the empty store the spec's new id is 1 and the entity
handed over has id 0 as well. -/
theorem CreateSection_id_counterexample :
    (memRepository.ListarSectionAll [sampleSection 3 5]).1 = ([sampleSection 3 5], none) ∧
      (∀ r ∈ [sampleSection 3 5], r.SectionNumber ≠ (sampleRequest 7).SectionNumber) ∧
      (memRepository.LastID [sampleSection 3 5]).1 = (3, none) ∧
      specNewId [sampleSection 3 5] = 4 ∧
      (∃ sec : Section,
        ((NewService memRepository).CreateSection (sampleRequest 7) [sampleSection 3 5]).calls
            = [Call.ListarSectionAll, Call.CreateSection sec] ∧
          sec.Id = 0 ∧ sec.Id ≠ specNewId [sampleSection 3 5]) ∧
      ((NewService memRepository).CreateSection (sampleRequest 7) [sampleSection 3 5]).value.1.Id
        = 0 ∧
      specNewId [] = 1 ∧
      (∃ sec : Section,
        ((NewService memRepository).CreateSection (sampleRequest 7) []).calls
            = [Call.ListarSectionAll, Call.CreateSection sec] ∧
          sec.Id = 0 ∧ sec.Id ≠ specNewId []) := by
  refine ⟨rfl, by decide, rfl, by decide, ⟨_, rfl, rfl, by decide⟩, rfl, by decide,
    ⟨_, rfl, rfl, by decide⟩⟩

/-- C3, amended. When the repository lists the collection without error and no
listed record has the section number of the request, `CreateSection` makes
exactly two repository calls, the listing and one `CreateSection`, never
`LastID`; the entity it hands over has `Id` 0 whatever ids the collection
holds, and the entity it returns is the one the repository returns for it. -/
theorem CreateSection_id_left_zero {σ : Type} (s : service σ)
    (newSection : SectionRequest) (st st1 : σ) (l : List Section)
    (hList : s.repository.ListarSectionAll st = ((l, none), st1))
    (hAbsent : ∀ r ∈ l, r.SectionNumber ≠ newSection.SectionNumber) :
    ∃ sec : Section,
      (s.CreateSection newSection st).calls
          = [Call.ListarSectionAll, Call.CreateSection sec] ∧
        sec.Id = 0 ∧
        Call.LastID ∉ (s.CreateSection newSection st).calls ∧
        (s.CreateSection newSection st).value.1 = (s.repository.CreateSection sec st1).1.1 := by
  have hAny := (duplicate_scan_false l newSection.SectionNumber).mpr hAbsent
  refine ⟨{ Id := 0,
            SectionNumber := newSection.SectionNumber,
            CurrentTemperature := newSection.CurrentTemperature,
            MinimumTemperature := newSection.MinimumTemperature,
            CurrentCapacity := newSection.CurrentCapacity,
            MinimumCapacity := newSection.MinimumCapacity,
            MaximumCapacity := newSection.MaximumCapacity,
            WareHouseId := newSection.WareHouseId,
            ProductTypeId := newSection.ProductTypeId }, ?_, rfl, ?_, ?_⟩
  · simp [service.CreateSection, hList, hAny]
  · simp [service.CreateSection, hList, hAny]
  · simp [service.CreateSection, hList, hAny]

/-- C3 amended, at a sample: ids up to 3 are taken and the entity handed over and
echoed back still has id 0. -/
theorem CreateSection_id_left_zero_witness :
    memRepository.ListarSectionAll [sampleSection 3 5]
        = (([sampleSection 3 5], none), [sampleSection 3 5]) ∧
      (∀ r ∈ [sampleSection 3 5], r.SectionNumber ≠ (sampleRequest 7).SectionNumber) ∧
      ∃ sec : Section,
        ((NewService memRepository).CreateSection (sampleRequest 7) [sampleSection 3 5]).calls
            = [Call.ListarSectionAll, Call.CreateSection sec] ∧
          sec.Id = 0 ∧
          Call.LastID ∉
            ((NewService memRepository).CreateSection (sampleRequest 7)
              [sampleSection 3 5]).calls ∧
          ((NewService memRepository).CreateSection (sampleRequest 7)
              [sampleSection 3 5]).value.1
            = (memRepository.CreateSection sec [sampleSection 3 5]).1.1 :=
  ⟨rfl, by decide,
   CreateSection_id_left_zero (NewService memRepository) (sampleRequest 7)
     [sampleSection 3 5] [sampleSection 3 5] [sampleSection 3 5] rfl (by decide)⟩

/-- C4, refuted at a sample: record 1 stores current temperature 10 and is
updated with a request that keeps section number 5 and leaves every other
field at zero; the merge of the spec keeps 10, yet the entity handed to the
repository's `UpdateSection` is the request itself, current temperature 0, and
the store ends up holding it. -/
theorem UpdateSection_merge_counterexample :
    (memRepository.ListarSectionAll [sampleSection 1 5]).1 = ([sampleSection 1 5], none) ∧
      (¬ ∃ r ∈ [sampleSection 1 5], r.Id ≠ 1 ∧ r.SectionNumber = 5) ∧
      (specMerge (sampleSection 1 5) { Section.zero with SectionNumber := 5 }).CurrentTemperature
        = 10 ∧
      (∃ sec : Section,
        ((NewService memRepository).UpdateSection 1 { Section.zero with SectionNumber := 5 }
            [sampleSection 1 5]).calls
            = [Call.ListarSectionAll, Call.UpdateSection 1 sec] ∧
          sec.CurrentTemperature = 0 ∧
          sec ≠ specMerge (sampleSection 1 5) { Section.zero with SectionNumber := 5 }) ∧
      ((NewService memRepository).UpdateSection 1 { Section.zero with SectionNumber := 5 }
          [sampleSection 1 5]).state = [{ Section.zero with SectionNumber := 5 }] := by
  refine ⟨rfl, by decide, by decide, ⟨_, rfl, rfl, by decide⟩, rfl⟩

/-- C4, amended. When the repository lists the collection without error and no
listed record with another id has the section number of the request,
`UpdateSection` hands the repository the request entity itself, every field as
the request has it, a zero field included, whatever the collection stores; the
service merges nothing. -/
theorem UpdateSection_passes_request {σ : Type} (s : service σ) (id : Int)
    (sectionUp : Section) (st st1 : σ) (l : List Section)
    (hList : s.repository.ListarSectionAll st = ((l, none), st1))
    (hFree : ¬ ∃ r ∈ l, r.Id ≠ id ∧ r.SectionNumber = sectionUp.SectionNumber) :
    ∀ (i : Int) (sec : Section),
      Call.UpdateSection i sec ∈ (s.UpdateSection id sectionUp st).calls ↔
        i = id ∧ sec = sectionUp := by
  have hFalse :
      l.any (fun x => x.Id != id && x.SectionNumber == sectionUp.SectionNumber) = false := by
    have h := mt (collision_scan l id sectionUp.SectionNumber).mp hFree
    simpa using h
  intro i sec
  simp [service.UpdateSection, hList, hFalse]

/-- C4 amended, at a sample: the request with zero fields is what reaches the
repository. -/
theorem UpdateSection_passes_request_witness :
    memRepository.ListarSectionAll [sampleSection 1 5]
        = (([sampleSection 1 5], none), [sampleSection 1 5]) ∧
      (¬ ∃ r ∈ [sampleSection 1 5], r.Id ≠ 1 ∧ r.SectionNumber = 5) ∧
      Call.UpdateSection 1 { Section.zero with SectionNumber := 5 } ∈
        ((NewService memRepository).UpdateSection 1 { Section.zero with SectionNumber := 5 }
          [sampleSection 1 5]).calls :=
  ⟨rfl, by decide,
   ((UpdateSection_passes_request (NewService memRepository) 1
      { Section.zero with SectionNumber := 5 } [sampleSection 1 5] [sampleSection 1 5]
      [sampleSection 1 5] rfl (by decide)) 1 { Section.zero with SectionNumber := 5 }).mpr
     ⟨rfl, rfl⟩⟩

/-- C5, refuted at a sample: the store holds record 1 with section number 5 and
the update names id 2, which no record has, with section number 5. The
repository obeys its contract, its `UpdateSection` fails with "section not
found" for id 2, yet the service never calls it and fails with the "already
registered" error instead. -/
theorem UpdateSection_absent_id_counterexample :
    (memRepository.ListarSectionAll [sampleSection 1 5]).1 = ([sampleSection 1 5], none) ∧
      (∀ r ∈ [sampleSection 1 5], r.Id ≠ 2) ∧
      (memRepository.UpdateSection 2 (sampleSection 2 5) [sampleSection 1 5]).1
        = (Section.zero, some "section not found") ∧
      ((NewService memRepository).UpdateSection 2 (sampleSection 2 5) [sampleSection 1 5]).value
        = (Section.zero, some "this section_number 5 is already registered") ∧
      ((NewService memRepository).UpdateSection 2 (sampleSection 2 5) [sampleSection 1 5]).value.2
        ≠ some "section not found" ∧
      ((NewService memRepository).UpdateSection 2 (sampleSection 2 5) [sampleSection 1 5]).calls
        = [Call.ListarSectionAll] := by
  refine ⟨rfl, by decide, by decide, by decide, by decide, by decide⟩

/-- C5, amended. When the repository lists the collection without error, no
listed record has the id `id`, and the repository's `UpdateSection` fails with
the error `notFound` for that id: if no listed record has the section number of
the request, `UpdateSection` calls the repository and fails with `notFound`;
if some listed record has it, `UpdateSection` fails with the "already
registered" error and does not call the repository's `UpdateSection`. -/
theorem UpdateSection_absent_id {σ : Type} (s : service σ) (id : Int)
    (sectionUp : Section) (st st1 : σ) (l : List Section) (notFound : error)
    (hList : s.repository.ListarSectionAll st = ((l, none), st1))
    (hAbsent : ∀ r ∈ l, r.Id ≠ id)
    (hContract : (s.repository.UpdateSection id sectionUp st1).1.2 = some notFound) :
    ((∀ r ∈ l, r.SectionNumber ≠ sectionUp.SectionNumber) →
        (s.UpdateSection id sectionUp st).value.2 = some notFound ∧
          (s.UpdateSection id sectionUp st).calls
            = [Call.ListarSectionAll, Call.UpdateSection id sectionUp]) ∧
      ((∃ r ∈ l, r.SectionNumber = sectionUp.SectionNumber) →
        (s.UpdateSection id sectionUp st).value
            = (Section.zero, some (updateConflict sectionUp.SectionNumber)) ∧
          (s.UpdateSection id sectionUp st).calls = [Call.ListarSectionAll]) := by
  constructor
  · intro hNone
    have hFalse :
        l.any (fun x => x.Id != id && x.SectionNumber == sectionUp.SectionNumber) = false := by
      have h : ¬ ∃ r ∈ l, r.Id ≠ id ∧ r.SectionNumber = sectionUp.SectionNumber :=
        fun ⟨r, hr, _, hNum⟩ => hNone r hr hNum
      have h2 := mt (collision_scan l id sectionUp.SectionNumber).mp h
      simpa using h2
    simp [service.UpdateSection, hList, hFalse, hContract]
  · rintro ⟨r, hr, hNum⟩
    have hAny :
        l.any (fun x => x.Id != id && x.SectionNumber == sectionUp.SectionNumber) = true :=
      (collision_scan l id sectionUp.SectionNumber).mpr ⟨r, hr, hAbsent r hr, hNum⟩
    simp [service.UpdateSection, hList, hAny]

/-- C5 amended, at a sample: id 2 is absent and section number 6 is free, so the
repository's not-found error comes back. -/
theorem UpdateSection_absent_id_witness :
    memRepository.ListarSectionAll [sampleSection 1 5]
        = (([sampleSection 1 5], none), [sampleSection 1 5]) ∧
      (∀ r ∈ [sampleSection 1 5], r.Id ≠ 2) ∧
      (memRepository.UpdateSection 2 (sampleSection 2 6) [sampleSection 1 5]).1.2
        = some "section not found" ∧
      ((NewService memRepository).UpdateSection 2 (sampleSection 2 6)
          [sampleSection 1 5]).value.2 = some "section not found" :=
  ⟨rfl, by decide, by decide,
   ((UpdateSection_absent_id (NewService memRepository) 2 (sampleSection 2 6)
      [sampleSection 1 5] [sampleSection 1 5] [sampleSection 1 5] "section not found" rfl
      (by decide) (by decide)).1 (by decide)).1⟩

/-- C6. When the repository's `ListarSectionAll` returns the error `e`,
`CreateSection` returns the zero `Section` with `e` and `UpdateSection` returns
the request entity with `e`, each after the listing call alone: the
repository's `CreateSection` and `UpdateSection` are not called. -/
theorem list_failure_propagates {σ : Type} (s : service σ) (newSection : SectionRequest)
    (id : Int) (sectionUp : Section) (st st1 : σ) (l : List Section) (e : error)
    (hList : s.repository.ListarSectionAll st = ((l, some e), st1)) :
    (s.CreateSection newSection st).value = (Section.zero, some e) ∧
      (s.CreateSection newSection st).calls = [Call.ListarSectionAll] ∧
      (s.UpdateSection id sectionUp st).value = (sectionUp, some e) ∧
      (s.UpdateSection id sectionUp st).calls = [Call.ListarSectionAll] := by
  simp [service.CreateSection, service.UpdateSection, hList]

/-- C6, at a sample: a repository that cannot be read. -/
theorem list_failure_propagates_witness :
    (failingRepository "store unreadable").ListarSectionAll () = (([], some "store unreadable"), ()) ∧
      ((NewService (failingRepository "store unreadable")).CreateSection
          (sampleRequest 7) ()).value.2 = some "store unreadable" ∧
      ((NewService (failingRepository "store unreadable")).UpdateSection 1
          (sampleSection 1 7) ()).value.2 = some "store unreadable" :=
  ⟨rfl,
   congrArg Prod.snd
     (list_failure_propagates (NewService (failingRepository "store unreadable"))
       (sampleRequest 7) 1 (sampleSection 1 7) () () [] "store unreadable" rfl).1,
   congrArg Prod.snd
     (list_failure_propagates (NewService (failingRepository "store unreadable"))
       (sampleRequest 7) 1 (sampleSection 1 7) () () [] "store unreadable" rfl).2.2.1⟩

/-- C7. When the repository lists the collection without error and no listed
record has the section number of the request, `CreateSection` makes the
listing call and then exactly one `CreateSection` call, with an entity whose
eight request fields equal those of the request, and returns the pair the
repository returns for that entity, an error included. -/
theorem CreateSection_delegates {σ : Type} (s : service σ)
    (newSection : SectionRequest) (st st1 : σ) (l : List Section)
    (hList : s.repository.ListarSectionAll st = ((l, none), st1))
    (hAbsent : ∀ r ∈ l, r.SectionNumber ≠ newSection.SectionNumber) :
    ∃ sec : Section,
      (s.CreateSection newSection st).calls
          = [Call.ListarSectionAll, Call.CreateSection sec] ∧
        sec.SectionNumber = newSection.SectionNumber ∧
        sec.CurrentTemperature = newSection.CurrentTemperature ∧
        sec.MinimumTemperature = newSection.MinimumTemperature ∧
        sec.CurrentCapacity = newSection.CurrentCapacity ∧
        sec.MinimumCapacity = newSection.MinimumCapacity ∧
        sec.MaximumCapacity = newSection.MaximumCapacity ∧
        sec.WareHouseId = newSection.WareHouseId ∧
        sec.ProductTypeId = newSection.ProductTypeId ∧
        (s.CreateSection newSection st).value = (s.repository.CreateSection sec st1).1 ∧
        (s.CreateSection newSection st).state = (s.repository.CreateSection sec st1).2 := by
  have hAny := (duplicate_scan_false l newSection.SectionNumber).mpr hAbsent
  refine ⟨{ Id := 0,
            SectionNumber := newSection.SectionNumber,
            CurrentTemperature := newSection.CurrentTemperature,
            MinimumTemperature := newSection.MinimumTemperature,
            CurrentCapacity := newSection.CurrentCapacity,
            MinimumCapacity := newSection.MinimumCapacity,
            MaximumCapacity := newSection.MaximumCapacity,
            WareHouseId := newSection.WareHouseId,
            ProductTypeId := newSection.ProductTypeId },
    ?_, rfl, rfl, rfl, rfl, rfl, rfl, rfl, rfl, ?_, ?_⟩
  · simp [service.CreateSection, hList, hAny]
  · simp [service.CreateSection, hList, hAny]
  · simp [service.CreateSection, hList, hAny]

/-- C7, at a sample: the repository fails to save, and `CreateSection` returns
that failure as it is. -/
theorem CreateSection_delegates_witness :
    saveFailingRepository.ListarSectionAll [sampleSection 1 5]
        = (([sampleSection 1 5], none), [sampleSection 1 5]) ∧
      (∀ r ∈ [sampleSection 1 5], r.SectionNumber ≠ (sampleRequest 7).SectionNumber) ∧
      ((NewService saveFailingRepository).CreateSection (sampleRequest 7)
          [sampleSection 1 5]).value = (Section.zero, some "Fail to save") :=
  ⟨rfl, by decide,
   (CreateSection_delegates (NewService saveFailingRepository) (sampleRequest 7)
      [sampleSection 1 5] [sampleSection 1 5] [sampleSection 1 5] rfl
      (by decide)).elim (fun _ h => h.2.2.2.2.2.2.2.2.2.1.trans rfl)⟩

/-- C10. `ListarSectionAll`, `ListarSectionOne` and `DeleteSection` each make one
repository call, the operation of the same name with the same id, and return
what it returns (the pair of the two reads, the error of the delete) and leave
the store as that call left it. -/
theorem read_delete_passthrough {σ : Type} (s : service σ) (id : Int) (st : σ) :
    ((s.ListarSectionAll st).value = (s.repository.ListarSectionAll st).1 ∧
        (s.ListarSectionAll st).calls = [Call.ListarSectionAll] ∧
        (s.ListarSectionAll st).state = (s.repository.ListarSectionAll st).2) ∧
      ((s.ListarSectionOne id st).value = (s.repository.ListarSectionOne id st).1 ∧
        (s.ListarSectionOne id st).calls = [Call.ListarSectionOne id] ∧
        (s.ListarSectionOne id st).state = (s.repository.ListarSectionOne id st).2) ∧
      ((s.DeleteSection id st).value = (s.repository.DeleteSection id st).1 ∧
        (s.DeleteSection id st).calls = [Call.DeleteSection id] ∧
        (s.DeleteSection id st).state = (s.repository.DeleteSection id st).2) :=
  ⟨⟨rfl, rfl, rfl⟩, ⟨rfl, rfl, rfl⟩, ⟨rfl, rfl, rfl⟩⟩

end Sections

/-! Properties of the employee handler. -/

namespace Handler

/-- The validator passes exactly the requests with a card number of nine
characters, a first name, a last name and a warehouse id other than zero. -/
theorem RequestValidator_none_iff (req : request) :
    RequestValidator req = none ↔
      req.CardNumberID.length = 9 ∧ req.FirstName ≠ "" ∧ req.LastName ≠ "" ∧
        req.WarehouseID ≠ 0 := by
  unfold RequestValidator
  by_cases h1 : req.CardNumberID.length = 9 <;> by_cases h2 : req.FirstName = "" <;>
    by_cases h3 : req.LastName = "" <;> by_cases h4 : req.WarehouseID = 0 <;>
    simp [h1, h2, h3, h4]

/-- C8, refuted at a sample: the request decodes and validates, the service
fails with a uniqueness error, and both `Create` and `Update` answer 404, which
is neither 422 nor 409 and is the very status they answer when the service
fails with a not-found error. -/
theorem conflict_status_counterexample :
    CheckIfErrorRequest { id := some 1, body := .ok fullRequest } = .ok fullRequest ∧
      ((NewEmployee (stubService Employee.zero (some "card_number_id already registered"))).Create
          { id := some 1, body := .ok fullRequest } ()).status = some 404 ∧
      ((NewEmployee (stubService Employee.zero (some "card_number_id already registered"))).Update
          { id := some 1, body := .ok fullRequest } ()).status = some 404 ∧
      ¬ (((NewEmployee
            (stubService Employee.zero (some "card_number_id already registered"))).Create
            { id := some 1, body := .ok fullRequest } ()).status = some 422 ∨
          ((NewEmployee
            (stubService Employee.zero (some "card_number_id already registered"))).Create
            { id := some 1, body := .ok fullRequest } ()).status = some 409) ∧
      ¬ (((NewEmployee
            (stubService Employee.zero (some "card_number_id already registered"))).Update
            { id := some 1, body := .ok fullRequest } ()).status = some 422 ∨
          ((NewEmployee
            (stubService Employee.zero (some "card_number_id already registered"))).Update
            { id := some 1, body := .ok fullRequest } ()).status = some 409) ∧
      ((NewEmployee (stubService Employee.zero (some "employee not found"))).Update
          { id := some 1, body := .ok fullRequest } ()).status
        = ((NewEmployee
            (stubService Employee.zero (some "card_number_id already registered"))).Update
            { id := some 1, body := .ok fullRequest } ()).status := by
  refine ⟨by decide, by decide, by decide, by decide, by decide, by decide⟩

/-- C8, amended. For every request that passes decoding and validation, when the
service's `Create` (or, with an integer id, its `Update`) returns an error, of
whatever kind, the handler makes that one service call and answers status 404
with the message of the error: a uniqueness failure and a not-found failure
get the same status. -/
theorem service_error_status {σ : Type} (c : EmployeeController σ) (ctx : Context)
    (req : request) (st : σ) (err : error)
    (hReq : CheckIfErrorRequest ctx = .ok req) :
    ((c.service.Create req.CardNumberID req.FirstName req.LastName req.WarehouseID st).1.2
          = some err →
        (c.Create ctx st).response = some { status := 404, body := .error (.text err) } ∧
          (c.Create ctx st).calls
            = [ServiceCall.Create req.CardNumberID req.FirstName req.LastName
                req.WarehouseID]) ∧
      (∀ id : Int, ctx.id = some id →
        (c.service.Update id req.CardNumberID req.FirstName req.LastName req.WarehouseID st).1.2
          = some err →
        (c.Update ctx st).response = some { status := 404, body := .error (.text err) } ∧
          (c.Update ctx st).calls
            = [ServiceCall.Update id req.CardNumberID req.FirstName req.LastName
                req.WarehouseID]) := by
  constructor
  · intro hErr
    simp [EmployeeController.Create, hReq, hErr]
  · intro id hId hErr
    simp [EmployeeController.Update, checkID, hId, hReq, hErr]

/-- C8 amended, at a sample: a uniqueness failure of `Create` is answered 404. -/
theorem service_error_status_witness :
    CheckIfErrorRequest { id := some 1, body := .ok fullRequest } = .ok fullRequest ∧
      ((NewEmployee (stubService Employee.zero (some "card_number_id already registered"))).Create
          { id := some 1, body := .ok fullRequest } ()).response
        = some { status := 404, body := .error (.text "card_number_id already registered") } :=
  ⟨by decide,
   ((service_error_status
      (NewEmployee (stubService Employee.zero (some "card_number_id already registered")))
      { id := some 1, body := .ok fullRequest } fullRequest ()
      "card_number_id already registered" (by decide)).1 rfl).1⟩

/-- C9, refuted at a sample: the id is the integer 1 and the body is a JSON
object that supplies a card number of nine characters and a first name and
leaves the last name and the warehouse id out; it decodes, and `Update` answers
422 naming the two fields left out and never calls the service. -/
theorem subset_update_counterexample :
    checkID { id := some 1, body := .ok subsetRequest } = .ok 1 ∧
      subsetRequest.CardNumberID.length = 9 ∧
      subsetRequest.FirstName ≠ "" ∧
      (∃ failed : List (String × String),
        ((NewEmployee (stubService Employee.zero none)).Update
            { id := some 1, body := .ok subsetRequest } ()).response
          = some { status := 422, body := .error (.invalid failed) } ∧
        ("LastName", "nonzero") ∈ failed ∧ ("WarehouseID", "nonzero") ∈ failed) ∧
      ((NewEmployee (stubService Employee.zero none)).Update
          { id := some 1, body := .ok subsetRequest } ()).status = some 422 ∧
      ((NewEmployee (stubService Employee.zero none)).Update
          { id := some 1, body := .ok subsetRequest } ()).calls = [] := by
  refine ⟨rfl, by decide, by decide,
    ⟨[("LastName", "nonzero"), ("WarehouseID", "nonzero")], by decide, by decide, by decide⟩,
    by decide, by decide⟩

/-- C9, amended. For every integer id and every body, whatever the bind makes of
it, `Update` calls the service exactly when the body decodes into a request
with a card number of nine characters, a first name, a last name and a
warehouse id other than zero, and then it calls the service's `Update` once
with that id and those four values. A body that decodes and leaves any of the
four out is answered 422 with the failing fields; an empty body and a body
that does not decode (not JSON, or well-formed JSON that does not fit the
struct) are answered 400; on the body `null` the handler panics and writes
nothing; in none of these cases is the service called or its state changed. -/
theorem Update_requires_all_fields {σ : Type} (c : EmployeeController σ) (ctx : Context)
    (id : Int) (st : σ) (hId : ctx.id = some id) :
    ((c.Update ctx st).calls ≠ [] ↔
        ∃ req : request, ctx.body = .ok req ∧ req.CardNumberID.length = 9 ∧
          req.FirstName ≠ "" ∧ req.LastName ≠ "" ∧ req.WarehouseID ≠ 0) ∧
      (∀ req : request, ctx.body = .ok req →
        ((req.CardNumberID.length = 9 ∧ req.FirstName ≠ "" ∧ req.LastName ≠ "" ∧
              req.WarehouseID ≠ 0) →
            (c.Update ctx st).calls
              = [ServiceCall.Update id req.CardNumberID req.FirstName req.LastName
                  req.WarehouseID]) ∧
          (¬ (req.CardNumberID.length = 9 ∧ req.FirstName ≠ "" ∧ req.LastName ≠ "" ∧
              req.WarehouseID ≠ 0) →
            (∃ failed : List (String × String),
              RequestValidator req = some failed ∧
                (c.Update ctx st).response
                  = some { status := 422, body := .error (.invalid failed) }) ∧
              (c.Update ctx st).calls = [] ∧ (c.Update ctx st).state = st)) ∧
      (ctx.body = .eof →
        (c.Update ctx st).response
            = some { status := 400, body := .error (.text "body could not be empty") } ∧
          (c.Update ctx st).calls = [] ∧ (c.Update ctx st).state = st) ∧
      (∀ msg : error, ctx.body = .failure msg →
        (c.Update ctx st).response = some { status := 400, body := .error (.text msg) } ∧
          (c.Update ctx st).calls = [] ∧ (c.Update ctx st).state = st) ∧
      (ctx.body = .null →
        (c.Update ctx st).response = none ∧
          (c.Update ctx st).calls = [] ∧ (c.Update ctx st).state = st) := by
  have hValid : ∀ req : request, ctx.body = .ok req →
      (req.CardNumberID.length = 9 ∧ req.FirstName ≠ "" ∧ req.LastName ≠ "" ∧
          req.WarehouseID ≠ 0) →
      (c.Update ctx st).calls
        = [ServiceCall.Update id req.CardNumberID req.FirstName req.LastName
            req.WarehouseID] := by
    intro req hBody hOk
    have hNone := (RequestValidator_none_iff req).mpr hOk
    cases hService :
        (c.service.Update id req.CardNumberID req.FirstName req.LastName req.WarehouseID st).1.2 <;>
      simp [EmployeeController.Update, checkID, CheckIfErrorRequest, hId, hBody, hNone, hService]
  have hInvalid : ∀ req : request, ctx.body = .ok req →
      ¬ (req.CardNumberID.length = 9 ∧ req.FirstName ≠ "" ∧ req.LastName ≠ "" ∧
          req.WarehouseID ≠ 0) →
      (∃ failed : List (String × String),
        RequestValidator req = some failed ∧
          (c.Update ctx st).response
            = some { status := 422, body := .error (.invalid failed) }) ∧
        (c.Update ctx st).calls = [] ∧ (c.Update ctx st).state = st := by
    intro req hBody hBad
    have hSome : RequestValidator req ≠ none :=
      fun h => hBad ((RequestValidator_none_iff req).mp h)
    obtain ⟨failed, hFailed⟩ := Option.ne_none_iff_exists'.mp hSome
    refine ⟨⟨failed, hFailed, ?_⟩, ?_, ?_⟩ <;>
      simp [EmployeeController.Update, checkID, CheckIfErrorRequest, hId, hBody, hFailed]
  refine ⟨⟨fun hCalls => ?_, fun ⟨req, hBody, hOk⟩ => ?_⟩,
    fun req hBody => ⟨hValid req hBody, hInvalid req hBody⟩, fun hBody => ?_,
    fun msg hBody => ?_, fun hBody => ?_⟩
  · cases hBody : ctx.body with
    | eof =>
      exact absurd (by simp [EmployeeController.Update, checkID, CheckIfErrorRequest, hId, hBody])
        hCalls
    | failure msg =>
      exact absurd (by simp [EmployeeController.Update, checkID, CheckIfErrorRequest, hId, hBody])
        hCalls
    | null =>
      exact absurd (by simp [EmployeeController.Update, checkID, CheckIfErrorRequest, hId, hBody])
        hCalls
    | ok req =>
      by_cases hOk : req.CardNumberID.length = 9 ∧ req.FirstName ≠ "" ∧ req.LastName ≠ "" ∧
          req.WarehouseID ≠ 0
      · exact ⟨req, rfl, hOk⟩
      · exact absurd (hInvalid req hBody hOk).2.1 hCalls
  · rw [hValid req hBody hOk]
    exact List.cons_ne_nil _ _
  · simp [EmployeeController.Update, checkID, CheckIfErrorRequest, hId, hBody]
  · simp [EmployeeController.Update, checkID, CheckIfErrorRequest, hId, hBody]
  · simp [EmployeeController.Update, checkID, CheckIfErrorRequest, hId, hBody]

/-- C9 amended, at a sample: a body with all four fields reaches the service. -/
theorem Update_requires_all_fields_witness :
    (({ id := some 1, body := .ok fullRequest } : Context).id = some 1) ∧
      ((NewEmployee (stubService Employee.zero none)).Update
          { id := some 1, body := .ok fullRequest } ()).calls
        = [ServiceCall.Update 1 "AAA111222" "Ana" "Silva" 3] :=
  ⟨rfl,
   ((Update_requires_all_fields (NewEmployee (stubService Employee.zero none))
      { id := some 1, body := .ok fullRequest } 1 () rfl).2.1 fullRequest rfl).1 (by decide)⟩

end Handler

end MercadoFresco
